import Mathlib

/-!
Verification development for the data-acquisition and normalization layer of
covid19_inference_forecast (covid19_inference/data_retrieval.py).

The Python module is shallowly embedded: pandas DataFrames become explicit
lists of row structures, raised exceptions become Except values, and the
external collaborators (git, HTTP, the local filesystem) become explicit
environment records of pure functions plus an effect trace, so that the
claims about when external calls happen can be stated.
-/

set_option autoImplicit false

namespace Covid

/-- Python exception values raised (or, in one case, merely constructed) by
the module.  Constructor names follow the Python exception classes. -/
inductive Err where
  | valueError (msg : String)
  | runtimeError (msg : String)
  | keyError (key : String)
  | typeErr (msg : String)
  | exc (msg : String)
deriving DecidableEq

instance instDecEqExcept {ε α : Type} [DecidableEq ε] [DecidableEq α] :
    DecidableEq (Except ε α) := fun x y =>
  match x, y with
  | .ok a, .ok b =>
    if h : a = b then isTrue (by rw [h]) else isFalse (fun he => by cases he; exact h rfl)
  | .error a, .error b =>
    if h : a = b then isTrue (by rw [h]) else isFalse (fun he => by cases he; exact h rfl)
  | .ok _, .error _ => isFalse (fun he => by cases he)
  | .error _, .ok _ => isFalse (fun he => by cases he)

/-- A calendar date, as produced by datetime.datetime.strptime. -/
structure Date where
  year : Nat
  month : Nat
  day : Nat
deriving DecidableEq

/-- Gregorian leap-year test, as in the datetime module. -/
def isLeap (y : Nat) : Bool :=
  (y % 4 == 0 && y % 100 != 0) || y % 400 == 0

/-- Number of days of month m in year y. -/
def daysInMonth (y m : Nat) : Nat :=
  if m = 2 then (if isLeap y then 29 else 28)
  else if m = 4 ∨ m = 6 ∨ m = 9 ∨ m = 11 then 30
  else 31

/-- Split a character list at every occurrence of the separator (the list
analogue of str.split with a one-character separator). -/
def splitChars (sep : Char) : List Char → List (List Char)
  | [] => [[]]
  | c :: cs =>
    if c = sep then [] :: splitChars sep cs
    else
      match splitChars sep cs with
      | [] => [[c]]
      | g :: gs => (c :: g) :: gs

/-- Numeric value of a list of ASCII digits. -/
def digitsToNat (cs : List Char) : Nat :=
  cs.foldl (fun n c => 10 * n + (c.toNat - 48)) 0

/-- A run of 1 to maxLen ASCII digits, as matched by one strptime field. -/
def parseDigits (maxLen : Nat) (s : List Char) : Option Nat :=
  if 1 ≤ s.length ∧ s.length ≤ maxLen ∧ s.all (fun c => c.isDigit) then
    some (digitsToNat s)
  else none

/-- strptime with format %m/%d/%y : month and day of 1 or 2 digits, a
two-digit year mapped to 2000..2068 or 1969..1999, slash-separated, with
calendar validation.  Used for the wide JHU CSV column headers. -/
def parseMDY (s : String) : Option Date :=
  match splitChars '/' s.toList with
  | [ms, ds, ys] =>
    match parseDigits 2 ms, parseDigits 2 ds, parseDigits 2 ys with
    | some m, some d, some y =>
      let year := if y ≤ 68 then 2000 + y else 1900 + y
      if 1 ≤ m ∧ m ≤ 12 ∧ 1 ≤ d ∧ d ≤ daysInMonth year m then
        some { year := year, month := m, day := d }
      else none
    | _, _, _ => none
  | _ => none

/-- strptime with format %d-%m-%Y : day and month of 1 or 2 digits, a year
of up to 4 digits, dash-separated.  Used for the date column of the bundled
RKI fallback CSV. -/
def parseDMY (s : String) : Option Date :=
  match splitChars '-' s.toList with
  | [ds, ms, ys] =>
    match parseDigits 2 ds, parseDigits 2 ms, parseDigits 4 ys with
    | some d, some m, some y =>
      if 1 ≤ m ∧ m ≤ 12 ∧ 1 ≤ d ∧ d ≤ daysInMonth y m then
        some { year := y, month := m, day := d }
      else none
    | _, _, _ => none
  | _ => none

/-- Days in the months strictly before month m (1-based) of year y. -/
def daysBeforeMonth (y m : Nat) : Nat :=
  ((List.range (m - 1)).map (fun i => daysInMonth y (i + 1))).sum

/-- Proleptic Gregorian ordinal of a date (0001-01-01 has ordinal 1), as in
datetime.date.toordinal. -/
def toOrdinal (d : Date) : Nat :=
  365 * (d.year - 1) + (d.year - 1) / 4 - (d.year - 1) / 100 + (d.year - 1) / 400
    + daysBeforeMonth d.year d.month + d.day

/-- Seconds since the epoch of midnight (UTC) at a date; 1970-01-01 has
ordinal 719163.  Stands in for the datetime value pandas stores. -/
def dateToTimestamp (d : Date) : Int :=
  ((toOrdinal d : Int) - 719163) * 86400

/-! ## The wide JHU table and its normalization (_jhu_to_iso) -/

/-- One row of the wide JHU CSV, in source column order:
Province/State, Country/Region, Lat, Long, then one cell per date header.
A cell of none models an empty cell (NaN after read_csv). -/
structure RawRow where
  state : Option String
  country : String
  lat : Int
  long : Int
  values : List (Option Int)
deriving DecidableEq

/-- The wide JHU CSV as parsed by pandas.read_csv: the date column headers
(still strings) and the rows. -/
structure RawTable where
  dateHeaders : List String
  rows : List RawRow
deriving DecidableEq

/-- Column count of the raw CSV: Province/State, Country/Region, Lat, Long,
plus one column per date header. -/
def RawTable.ncols (t : RawTable) : Nat :=
  4 + t.dateHeaders.length

/-- Row count of the raw CSV. -/
def RawTable.nrows (t : RawTable) : Nat :=
  t.rows.length

/-- One row of the normalized table: the (country, state) index pair and the
per-date cells. -/
structure NormRow where
  country : String
  state : Option String
  values : List (Option Int)
deriving DecidableEq

/-- The normalized table: real dates as the column index, rows indexed by
(country, state).  The index may contain duplicate keys. -/
structure NormTable where
  dates : List Date
  rows : List NormRow
deriving DecidableEq

/-- Parse every header with strptime %m/%d/%y; none if any header fails. -/
def parseHeaders : List String → Option (List Date)
  | [] => some []
  | h :: t =>
    match parseMDY h, parseHeaders t with
    | some d, some ds => some (d :: ds)
    | _, _ => none

/-- Embedding of _jhu_to_iso: drop Lat/Long, rename and re-index by
(country, state), parse every remaining column header with %m/%d/%y.
A non-conforming header makes strptime raise ValueError. -/
def _jhu_to_iso (df : RawTable) : Except Err NormTable :=
  match parseHeaders df.dateHeaders with
  | some ds =>
    .ok { dates := ds,
          rows := df.rows.map (fun r =>
            { country := r.country, state := r.state, values := r.values }) }
  | none => .error (Err.valueError "time data does not match format %m/%d/%y")

/-! ## filter_one_country -/

/-- Embedding of the module-level _format_date lambda:
month/day/str(year)[2:4], with month and day unpadded. -/
def _format_date (date_py : Date) : String :=
  toString date_py.month ++ "/" ++ toString date_py.day ++ "/"
    ++ ((toString date_py.year).drop 2).take 2

/-- First position of a label in a string index (pandas label lookup). -/
def idxOfStr (l : List String) (s : String) : Option Nat :=
  l.findIdx? (fun x => x == s)

/-- The rows selected by
data_df[(data_df[Province/State].isnull()) & (data_df[Country/Region]==country)]. -/
def bareMatches (data_df : RawTable) (country : String) : List RawRow :=
  data_df.rows.filter (fun r => r.state == none && r.country == country)

/-- Embedding of filter_one_country.  Operates on the wide table, as the
source does: it reads the Province/State and Country/Region columns and
slices the string-labelled date columns between the formatted begin and end
labels (inclusive).  The summed path reproduces the pandas column sums,
which skip missing cells; a missing slice label raises KeyError. -/
def filter_one_country (data_df : RawTable) (country : String)
    (begin_date end_date : Date) : Except Err (List (Option Int)) :=
  let date_formatted_begin := _format_date begin_date
  let date_formatted_end := _format_date end_date
  let y := bareMatches data_df country
  if y.length = 1 then
    match idxOfStr data_df.dateHeaders date_formatted_begin,
          idxOfStr data_df.dateHeaders date_formatted_end with
    | some i, some j =>
      .ok (y.flatMap (fun r => (r.values.drop i).take (j + 1 - i)))
    | _, _ => .error (Err.keyError "date label not found")
  else if y.length = 0 then
    let rows_c := data_df.rows.filter (fun r => r.country == country)
    match idxOfStr data_df.dateHeaders date_formatted_begin,
          idxOfStr data_df.dateHeaders date_formatted_end with
    | some i, some j =>
      .ok (((((List.range data_df.dateHeaders.length).map (fun p =>
          (rows_c.map (fun r => (r.values.getD p none).getD 0)).sum)).drop
            i).take (j + 1 - i)).map some)
    | _, _ => .error (Err.keyError "date label not found")
  else .error (Err.runtimeError ("Country not found: " ++ country))

/-! ## The RKI table, get_rki and filter_rki -/

/-- The attributes object of one RKI JSON feature, with the eight outFields
requested by the per-region query.  Meldedatum is in epoch milliseconds. -/
structure RkiRecord where
  bundesland : String
  landkreis : String
  altersgruppe : String
  geschlecht : String
  anzahlFall : Int
  anzahlTodesfall : Int
  meldedatum : Int
  neuerFall : Int
deriving DecidableEq

/-- One row of the combined RKI dataframe: the eight record fields plus the
derived date column (epoch seconds) and, after filter_rki with the Total
variable, the added Total column (none while the column is absent). -/
structure RkiRow extends RkiRecord where
  date : Int
  total : Option Int
deriving DecidableEq

/-- Numeric column access on one row.  The four text columns and the date
column are not summable metrics, hence none. -/
def RkiRow.get (r : RkiRow) (c : String) : Option Int :=
  if c = "AnzahlFall" then some r.anzahlFall
  else if c = "AnzahlTodesfall" then some r.anzahlTodesfall
  else if c = "NeuerFall" then some r.neuerFall
  else if c = "Meldedatum" then some r.meldedatum
  else if c = "Total" then r.total
  else none

/-- Text column access on one row (for the df[df[level]==value] mask; on a
non-text column the mask compares a number with a string and is false). -/
def RkiRow.getStr (r : RkiRow) (c : String) : Option String :=
  if c = "Bundesland" then some r.bundesland
  else if c = "Landkreis" then some r.landkreis
  else if c = "Altersgruppe" then some r.altersgruppe
  else if c = "Geschlecht" then some r.geschlecht
  else none

/-- The columns of the dataframe built by get_rki. -/
def rkiBaseCols : List String :=
  ["Bundesland", "Landkreis", "Altersgruppe", "Geschlecht", "AnzahlFall",
   "AnzahlTodesfall", "Meldedatum", "NeuerFall", "date"]

/-- The columns present when filter_rki runs its groupby: the base columns
plus the Total column that the variable = Total branch has just added. -/
def rkiColsFor (var : String) : List String :=
  rkiBaseCols ++ (if var = "Total" then ["Total"] else [])

/-- One row of the bundled data/rki_fallback.csv: the record fields plus the
date column as text in %d-%m-%Y format. -/
structure FallbackRow extends RkiRecord where
  dateStr : String
deriving DecidableEq

/-- The external collaborators of get_rki: the distinct-Landkreis-id
enumeration, the per-region query (feature attributes per id), and the rows
of the bundled fallback CSV. -/
structure RkiEnv where
  regionIds : List String
  query : String → List RkiRecord
  fallback : List FallbackRow

/-- datetime.datetime.fromtimestamp(x/1e3), kept as epoch seconds. -/
def fromtimestamp_ms (x : Int) : Int :=
  x / 1000

/-- pd.to_datetime(df[date], format=%d-%m-%Y) over the fallback rows;
a non-conforming date raises ValueError. -/
def parseFallback : List FallbackRow → Except Err (List RkiRow)
  | [] => .ok []
  | r :: rest =>
    match parseDMY r.dateStr with
    | some d =>
      (parseFallback rest).map
        (fun t => { toRkiRecord := r.toRkiRecord,
                    date := dateToTimestamp d, total := none } :: t)
    | none => .error (Err.valueError "time data does not match format %d-%m-%Y")

/-- Embedding of get_rki.  First component: the resulting dataframe (or the
raised exception).  Second component: the trace of per-region queries
issued, in order.  When the enumerated region count is 412 the per-region
results are concatenated and the date column is derived from Meldedatum;
inside that loop the source builds ValueError(Query limit exceeded) when a
region returns more than 5000 records but never raises it, so the records
are appended regardless.  Otherwise the bundled fallback CSV is used and no
per-region query is issued. -/
def get_rki (env : RkiEnv) : Except Err (List RkiRow) × List String :=
  let n_data := env.regionIds.length
  if n_data = 412 then
    let df := (env.regionIds.map (fun idlandkreis => env.query idlandkreis)).flatten
    (.ok (df.map (fun r =>
        { toRkiRecord := r, date := fromtimestamp_ms r.meldedatum, total := none })),
     env.regionIds)
  else
    (parseFallback env.fallback, [])

/-- Running cumulative sum over a (date, group sum) series, keeping dates. -/
def cumPairs (acc : Int) : List (Int × Int) → List (Int × Int)
  | [] => []
  | (d, x) :: rest => (d, acc + x) :: cumPairs (acc + x) rest

/-- df.groupby(date)[var].sum().cumsum(): the distinct dates in ascending
order, each paired with the running total of the per-date column sums. -/
def rkiCumsum (rows : List RkiRow) (var : String) : List (Int × Int) :=
  let dates := ((rows.map RkiRow.date).dedup).insertionSort (fun a b => a ≤ b)
  cumPairs 0 (dates.map (fun d =>
    (d, ((rows.filter (fun r => r.date == d)).map
          (fun r => (RkiRow.get r var).getD 0)).sum)))

/-- series[begin_date:end_date]: the label slice of the date-indexed series,
inclusive at both ends. -/
def rkiSlice (series : List (Int × Int)) (begin_date end_date : Int) : List Int :=
  (series.filter (fun p => begin_date ≤ p.1 ∧ p.1 ≤ end_date)).map Prod.snd

/-- df.groupby(date)[var].sum().cumsum() then the date slice; KeyError when
the column is absent, and a non-numeric metric column is a type error. -/
def groupbyCumsum (rows : List RkiRow) (var : String)
    (begin_date end_date : Int) : Except Err (List Int) :=
  if var ∈ rkiColsFor var then
    if rows.all (fun r => (RkiRow.get r var).isSome) then
      .ok (rkiSlice (rkiCumsum rows var) begin_date end_date)
    else .error (Err.typeErr var)
  else .error (Err.keyError var)

/-- The df[Total] = df[NeuerFall] + df[AnzahlFall] column assignment that
filter_rki performs on the caller-supplied dataframe when the variable is
Total (and performs in place, on that dataframe itself). -/
def rkiAug (var : String) (df : List RkiRow) : List RkiRow :=
  if var = "Total"
  then df.map (fun r => { r with total := some (r.neuerFall + r.anzahlFall) })
  else df

/-- The value of the chosen metric on one row: the Total variable reads
NeuerFall + AnzahlFall, any other variable reads its column. -/
def metricOf (var : String) (r : RkiRow) : Int :=
  if var = "Total" then r.neuerFall + r.anzahlFall
  else (RkiRow.get r var).getD 0

/-- Embedding of filter_rki.  First component: the returned array (or the
raised exception).  Second component: the state of the caller-supplied
dataframe after the call; the variable = Total branch assigns a new Total
column on that dataframe itself, so the mutation is visible to the caller.
The input-parsing block of the source builds ValueError objects for an
unknown variable or level but never raises them, so it has no effect here.
With a level, the source projects the filtered rows to the columns
[date, value] (value, not variable), so the chosen metric column survives
only when the caller passed value equal to the metric name; a missing label
raises KeyError. -/
def filter_rki (df : List RkiRow) (begin_date end_date : Int)
    (var : String) (level : Option String) (value : String) :
    Except Err (List Int) × List RkiRow :=
  let df2 := rkiAug var df
  let res : Except Err (List Int) :=
    match level with
    | none => groupbyCumsum df2 var begin_date end_date
    | some lvl =>
      if lvl ∈ rkiColsFor var then
        let kept := df2.filter (fun r => RkiRow.getStr r lvl == some value)
        if value ∈ rkiColsFor var then
          if var = "date" ∨ var = value then
            groupbyCumsum kept var begin_date end_date
          else .error (Err.keyError var)
        else .error (Err.keyError value)
      else .error (Err.keyError lvl)
  (res, df2)

/-! ## clone_jhu_at_time -/

/-- The argument of clone_jhu_at_time: whether the datetime carries tzinfo,
and its isoformat rendering. -/
structure Timestamp where
  tzAware : Bool
  iso : String

/-- One external call made by clone_jhu_at_time (all of them run git). -/
inductive GitCall where
  | clone (repo repodir : String)
  | revListBefore (time : String)
  | checkout (commit : String)
deriving DecidableEq

/-- The git collaborator: the commit id printed by git rev-list -1 --until,
and whether git checkout of a commit succeeds. -/
structure GitEnv where
  revListBefore : String → String
  checkoutOk : String → Bool

/-- Embedding of clone_jhu_at_time.  First component: the three returned
CSV paths or the raised exception.  Second component: the trace of external
git calls, in order; a naive timestamp is rejected before any of them. -/
def clone_jhu_at_time (env : GitEnv) (checkout_time : Timestamp)
    (workdir : String) : Except Err (String × String × String) × List GitCall :=
  if !checkout_time.tzAware then
    (.error (Err.valueError "The [checkout_time] must be timezone-aware!"), [])
  else
    let repodir := workdir ++ "/jhu_repo"
    let calls := [GitCall.clone "https://github.com/CSSEGISandData/COVID-19" repodir,
                  GitCall.revListBefore checkout_time.iso]
    let commit_id := env.revListBefore checkout_time.iso
    if commit_id.length ≠ 40 then
      (.error (Err.exc ("Failed to find a valid commit id before the specified checkout_time ("
          ++ checkout_time.iso ++ ")")), calls)
    else
      let calls := calls ++ [GitCall.checkout commit_id]
      if env.checkoutOk commit_id then
        let dp_ts := repodir ++ "/csse_covid_19_data/csse_covid_19_time_series"
        (.ok (dp_ts ++ "/time_series_covid19_confirmed_global.csv",
              dp_ts ++ "/time_series_covid19_deaths_global.csv",
              dp_ts ++ "/time_series_covid19_recovered_global.csv"), calls)
      else (.error (Err.exc "CalledProcessError"), calls)

/-! ## get_jhu_confirmed_cases and get_jhu_deaths -/

/-- A CSV as a list of rows of cells. -/
abbrev Csv : Type := List (List String)

/-- The HTTP and filesystem collaborators of the two series fetchers:
pd.read_csv on a URL (which may raise) and pd.read_csv on a path bundled
with the module (modelled as total; a missing fallback file would
propagate uncaught, which no claim exercises). -/
structure HttpEnv where
  read_csv_url : String → Except String Csv
  read_csv_local : String → Csv

/-- Embedding of get_jhu_confirmed_cases: any download exception falls back
to the bundled confirmed-cases CSV. -/
def get_jhu_confirmed_cases (env : HttpEnv) : Csv :=
  match env.read_csv_url "https://raw.githubusercontent.com/CSSEGISandData/COVID-19/master/csse_covid_19_data/csse_covid_19_time_series/time_series_covid19_confirmed_global.csv" with
  | .ok confirmed_cases => confirmed_cases
  | .error _ => env.read_csv_local "/../data/confirmed_global_fallback_2020-04-07.csv"

/-- Embedding of get_jhu_deaths: any download exception falls back to the
path literal written in the source, which is the confirmed-cases fallback
file, not a deaths file. -/
def get_jhu_deaths (env : HttpEnv) : Csv :=
  match env.read_csv_url "https://raw.githubusercontent.com/CSSEGISandData/COVID-19/master/csse_covid_19_data/csse_covid_19_time_series/time_series_covid19_deaths_global.csv" with
  | .ok deaths => deaths
  | .error _ => env.read_csv_local "/../data/confirmed_global_fallback_2020-04-07.csv"


/-! ## Concrete inputs used by witnesses and counterexamples -/

/-- The wide CSV of the round-trip scenario: country=[A,A], state=[None,X],
1/1/21=[5,None], 1/2/21=[7,3]. -/
def c1Table : RawTable :=
  { dateHeaders := ["1/1/21", "1/2/21"],
    rows :=
      [ { state := none, country := "A", lat := 0, long := 0,
          values := [some 5, some 7] },
        { state := some "X", country := "A", lat := 0, long := 0,
          values := [none, some 3] } ] }

/-- A valid wide CSV with one date column (so 5 columns in total). -/
def c9Table : RawTable :=
  { dateHeaders := ["3/1/20"],
    rows := [ { state := none, country := "B", lat := 10, long := 20,
                values := [some 1] } ] }

/-- The normalization of c9Table. -/
def c9Norm : NormTable :=
  { dates := [{ year := 2020, month := 3, day := 1 }],
    rows := [ { country := "B", state := none, values := [some 1] } ] }

/-- A wide CSV whose second column header is not an %m/%d/%y date. -/
def c9BadTable : RawTable :=
  { dateHeaders := ["1/1/21", "foo"], rows := [] }

/-- A table with two bare (no sub-region) rows for the same country. -/
def c5Table : RawTable :=
  { dateHeaders := ["1/1/21"],
    rows :=
      [ { state := none, country := "A", lat := 0, long := 0, values := [some 1] },
        { state := none, country := "A", lat := 1, long := 1, values := [some 2] } ] }

/-- One RKI record (a per-region query result row). -/
def c2Record : RkiRecord :=
  { bundesland := "Bayern", landkreis := "SK Schweinfurt", altersgruppe := "A00-A04",
    geschlecht := "M", anzahlFall := 1, anzahlTodesfall := 0,
    meldedatum := 0, neuerFall := 0 }

/-- An environment with exactly 412 regions, one of which answers with 5001
records, one over the query limit. -/
def c2Env : RkiEnv :=
  { regionIds := "09662" :: List.replicate 411 "x",
    query := fun i => if i == "09662" then List.replicate 5001 c2Record else [],
    fallback := [] }

/-- One row of the combined RKI dataframe. -/
def c3Row : RkiRow :=
  { bundesland := "Sachsen", landkreis := "LK Bautzen", altersgruppe := "A15-A34",
    geschlecht := "W", anzahlFall := 3, anzahlTodesfall := 1,
    meldedatum := 2000, neuerFall := 2, date := 2, total := none }

/-- A one-row combined RKI dataframe. -/
def c3Df : List RkiRow := [c3Row]

/-- A two-row combined RKI dataframe with distinct dates. -/
def c4Df : List RkiRow :=
  [ { bundesland := "Bayern", landkreis := "LK A", altersgruppe := "A35-A59",
      geschlecht := "M", anzahlFall := 3, anzahlTodesfall := 0,
      meldedatum := 5000000, neuerFall := 1, date := 5000, total := none },
    { bundesland := "Hessen", landkreis := "LK B", altersgruppe := "A60-A79",
      geschlecht := "W", anzahlFall := 4, anzahlTodesfall := 1,
      meldedatum := 6000000, neuerFall := 0, date := 6000, total := none } ]

/-- A git collaborator that always answers. -/
def c6Env : GitEnv :=
  { revListBefore := fun _ => "0000000000000000000000000000000000000000",
    checkoutOk := fun _ => true }

/-- A timestamp without tzinfo. -/
def c6Time : Timestamp :=
  { tzAware := false, iso := "2020-03-22T00:00:00" }

/-- An environment with 400 enumerated regions instead of 412, and a
one-row fallback CSV. -/
def c7Env : RkiEnv :=
  { regionIds := List.replicate 400 "x",
    query := fun _ => [],
    fallback :=
      [ { bundesland := "Berlin", landkreis := "SK Berlin", altersgruppe := "A05-A14",
          geschlecht := "M", anzahlFall := 2, anzahlTodesfall := 0,
          meldedatum := 0, neuerFall := 1, dateStr := "02-01-2021" } ] }

/-- An HTTP collaborator whose every download raises, and whose local
filesystem answers each path with a one-cell CSV naming that path. -/
def c8Env : HttpEnv :=
  { read_csv_url := fun _ => .error "ConnectionError",
    read_csv_local := fun fp => [[fp]] }

/-- A one-row combined RKI dataframe without a Total column. -/
def c10Df : List RkiRow :=
  [ { bundesland := "Bremen", landkreis := "SK Bremen", altersgruppe := "A80+",
      geschlecht := "W", anzahlFall := 2, anzahlTodesfall := 0,
      meldedatum := 5000, neuerFall := 1, date := 5, total := none } ]

/-! ## Helper lemmas -/

theorem parseHeaders_length : ∀ (hs : List String) (ds : List Date),
    parseHeaders hs = some ds → ds.length = hs.length := by
  intro hs
  induction hs with
  | nil =>
    intro ds h
    simp only [parseHeaders, Option.some.injEq] at h
    rw [← h]
    rfl
  | cons hd tl ih =>
    intro ds h
    cases hmd : parseMDY hd with
    | none => simp [parseHeaders, hmd] at h
    | some d =>
      cases hph : parseHeaders tl with
      | none => simp [parseHeaders, hmd, hph] at h
      | some ds0 =>
        simp only [parseHeaders, hmd, hph, Option.some.injEq] at h
        rw [← h]
        simp [ih ds0 hph]

theorem parseHeaders_isSome : ∀ (hs : List String) (ds : List Date),
    parseHeaders hs = some ds → ∀ h ∈ hs, (parseMDY h).isSome = true := by
  intro hs
  induction hs with
  | nil => intro ds _ h hmem; cases hmem
  | cons hd tl ih =>
    intro ds hsome h hmem
    cases hmd : parseMDY hd with
    | none => simp [parseHeaders, hmd] at hsome
    | some d =>
      cases hph : parseHeaders tl with
      | none => simp [parseHeaders, hmd, hph] at hsome
      | some ds0 =>
        rcases List.mem_cons.mp hmem with h1 | h1
        · rw [h1, hmd]; rfl
        · exact ih ds0 hph h h1

theorem parseHeaders_none : ∀ (hs : List String),
    (∃ h ∈ hs, parseMDY h = none) → parseHeaders hs = none := by
  intro hs
  induction hs with
  | nil => intro h; obtain ⟨x, hx, _⟩ := h; cases hx
  | cons hd tl ih =>
    intro h
    obtain ⟨x, hx, hnone⟩ := h
    rcases List.mem_cons.mp hx with h1 | h1
    · rw [h1] at hnone
      simp [parseHeaders, hnone]
    · have htl := ih ⟨x, h1, hnone⟩
      cases hmd : parseMDY hd <;> simp [parseHeaders, hmd, htl]

theorem filter_rki_fst (df : List RkiRow) (b e : Int) (var : String)
    (level : Option String) (value : String) :
    (filter_rki df b e var level value).fst =
      (match level with
       | none => groupbyCumsum (rkiAug var df) var b e
       | some lvl =>
         if lvl ∈ rkiColsFor var then
           if value ∈ rkiColsFor var then
             if var = "date" ∨ var = value then
               groupbyCumsum ((rkiAug var df).filter
                 (fun r => RkiRow.getStr r lvl == some value)) var b e
             else .error (Err.keyError var)
           else .error (Err.keyError value)
         else .error (Err.keyError lvl)) := rfl

theorem filter_rki_snd (df : List RkiRow) (b e : Int) (var : String)
    (level : Option String) (value : String) :
    (filter_rki df b e var level value).snd = rkiAug var df := rfl

theorem get_total_aug (r : RkiRow) (t : Int) :
    RkiRow.get { r with total := some t } "Total" = some t := rfl

theorem nonneg_get_of_metric (var : String) (df : List RkiRow)
    (hpos : ∀ r ∈ df, 0 ≤ metricOf var r) :
    ∀ r ∈ rkiAug var df, 0 ≤ (RkiRow.get r var).getD 0 := by
  intro r hr
  unfold rkiAug at hr
  by_cases h : var = "Total"
  · subst h
    rw [if_pos rfl] at hr
    obtain ⟨r0, hr0, rfl⟩ := List.mem_map.mp hr
    have hm := hpos r0 hr0
    unfold metricOf at hm
    rw [if_pos rfl] at hm
    rw [get_total_aug]
    exact hm
  · rw [if_neg h] at hr
    have hm := hpos r hr
    unfold metricOf at hm
    rw [if_neg h] at hm
    exact hm

theorem cumPairs_ge : ∀ (l : List (Int × Int)), (∀ p ∈ l, 0 ≤ p.2) →
    ∀ acc : Int, ∀ q ∈ cumPairs acc l, acc ≤ q.2 := by
  intro l
  induction l with
  | nil => intro _ acc q hq; simp [cumPairs] at hq
  | cons p rest ih =>
    intro hl acc q hq
    obtain ⟨d, x⟩ := p
    have hx : 0 ≤ x := hl (d, x) (List.mem_cons_self _ _)
    have hrest : ∀ p ∈ rest, 0 ≤ p.2 :=
      fun p hp => hl p (List.mem_cons_of_mem _ hp)
    simp only [cumPairs] at hq
    rcases List.mem_cons.mp hq with h | h
    · rw [h]
      show acc ≤ acc + x
      linarith
    · have := ih hrest (acc + x) q h
      linarith

theorem cumPairs_pairwise : ∀ (l : List (Int × Int)), (∀ p ∈ l, 0 ≤ p.2) →
    ∀ acc : Int, (cumPairs acc l).Pairwise (fun p q => p.2 ≤ q.2) := by
  intro l
  induction l with
  | nil => intro _ acc; simp [cumPairs]
  | cons p rest ih =>
    intro hl acc
    obtain ⟨d, x⟩ := p
    have hrest : ∀ p ∈ rest, 0 ≤ p.2 :=
      fun p hp => hl p (List.mem_cons_of_mem _ hp)
    simp only [cumPairs]
    constructor
    · intro q hq
      exact cumPairs_ge rest hrest (acc + x) q hq
    · exact ih hrest (acc + x)

theorem rkiCumsum_pairwise (rows : List RkiRow) (var : String)
    (h : ∀ r ∈ rows, 0 ≤ (RkiRow.get r var).getD 0) :
    (rkiCumsum rows var).Pairwise (fun p q => p.2 ≤ q.2) := by
  unfold rkiCumsum
  apply cumPairs_pairwise
  intro p hp
  obtain ⟨d, hd, rfl⟩ := List.mem_map.mp hp
  apply List.sum_nonneg
  intro x hx
  obtain ⟨r, hr, rfl⟩ := List.mem_map.mp hx
  exact h r (List.mem_filter.mp hr).1

theorem rkiSlice_pairwise (series : List (Int × Int)) (b e : Int)
    (h : series.Pairwise (fun p q => p.2 ≤ q.2)) :
    (rkiSlice series b e).Pairwise (fun x y : Int => x ≤ y) := by
  unfold rkiSlice
  rw [List.pairwise_map]
  exact h.sublist (List.filter_sublist _)

theorem groupbyCumsum_ok (rows : List RkiRow) (var : String) (b e : Int)
    (out : List Int) (h : groupbyCumsum rows var b e = .ok out) :
    out = rkiSlice (rkiCumsum rows var) b e := by
  unfold groupbyCumsum at h
  split_ifs at h
  injection h with h
  exact h.symm

/-! ## Claim theorems -/

/-- C1 counterexample: on the wide CSV with country=[A,A], state=[None,X],
1/1/21=[5,None], 1/2/21=[7,3], extraction for entity A over the inclusive
range [1/1/21, 1/2/21] does not return [5, 10]. -/
theorem filter_one_country_roundtrip_cex :
    ¬ (filter_one_country c1Table "A" { year := 2021, month := 1, day := 1 }
        { year := 2021, month := 1, day := 2 } = .ok [some 5, some 10]) := by
  decide

/-- C1 amended: normalization of that CSV succeeds, and extraction (which
operates on the wide table) returns [5, 7]: exactly one bare no-sub-region
row matches A, so the single-row path returns that row as is, and the path
that sums the sub-region rows is reached only when no bare row matches. -/
theorem filter_one_country_roundtrip_amended :
    (_jhu_to_iso c1Table).isOk = true ∧
    filter_one_country c1Table "A" { year := 2021, month := 1, day := 1 }
      { year := 2021, month := 1, day := 2 } = .ok [some 5, some 7] := by
  constructor
  · decide
  · decide

/-- C3: with a level and a value, filter_rki does not return the restricted
grouped cumulative series: the source projects the restricted rows to the
columns [date, value] instead of [date, variable], so the lookup of the
value as a column label raises KeyError and no series is returned.  The
caller-visible dataframe is unchanged here since the variable is not Total. -/
theorem filter_rki_level_projection_keyerror :
    filter_rki c3Df 0 100 "AnzahlFall" (some "Bundesland") "Sachsen"
      = (.error (Err.keyError "Sachsen"), c3Df) := by
  decide

/-- C5: when more than one bare (no sub-region) row matches the entity,
filter_one_country raises instead of returning a series (the source raises
RuntimeError with the message Country not found, the error the spec calls
AmbiguityError). -/
theorem filter_one_country_ambiguity (data_df : RawTable) (country : String)
    (begin_date end_date : Date)
    (h : 1 < (bareMatches data_df country).length) :
    filter_one_country data_df country begin_date end_date
      = .error (Err.runtimeError ("Country not found: " ++ country)) := by
  simp only [filter_one_country]
  rw [if_neg (by omega), if_neg (by omega)]

/-- C5 witness: a table with two bare rows for country A. -/
theorem filter_one_country_ambiguity_witness :
    1 < (bareMatches c5Table "A").length ∧
    filter_one_country c5Table "A" { year := 2021, month := 1, day := 1 }
      { year := 2021, month := 1, day := 1 }
      = .error (Err.runtimeError "Country not found: A") :=
  ⟨by decide,
   filter_one_country_ambiguity c5Table "A" { year := 2021, month := 1, day := 1 }
     { year := 2021, month := 1, day := 1 } (by decide)⟩

/-- C6: a timestamp without tzinfo makes clone_jhu_at_time raise ValueError
(the error the spec calls ConfigurationError) with an empty trace of git
calls: the failure happens before the clone, so before any network I/O. -/
theorem clone_jhu_naive_tz_rejected_early (env : GitEnv)
    (checkout_time : Timestamp) (workdir : String)
    (h : checkout_time.tzAware = false) :
    clone_jhu_at_time env checkout_time workdir
      = (.error (Err.valueError "The [checkout_time] must be timezone-aware!"), []) := by
  simp [clone_jhu_at_time, h]

/-- C6 witness: a concrete naive timestamp against a live git collaborator. -/
theorem clone_jhu_naive_tz_rejected_early_witness :
    c6Time.tzAware = false ∧
    clone_jhu_at_time c6Env c6Time "/tmp/workdir"
      = (.error (Err.valueError "The [checkout_time] must be timezone-aware!"), []) :=
  ⟨rfl, clone_jhu_naive_tz_rejected_early c6Env c6Time "/tmp/workdir" rfl⟩

/-- C7: whenever the enumerated region count differs from 412, get_rki
returns the bundled fallback CSV with its date column parsed in the
%d-%m-%Y day-month-year format (parseFallback), and its trace of per-region
queries is empty: no per-region query is ever issued. -/
theorem get_rki_fallback_on_region_count_mismatch (env : RkiEnv)
    (h : env.regionIds.length ≠ 412) :
    get_rki env = (parseFallback env.fallback, []) := by
  simp only [get_rki]
  rw [if_neg h]

set_option maxRecDepth 100000 in
/-- C7 witness: 400 enumerated regions instead of 412. -/
theorem get_rki_fallback_on_region_count_mismatch_witness :
    c7Env.regionIds.length ≠ 412 ∧
    get_rki c7Env = (parseFallback c7Env.fallback, []) :=
  ⟨by decide, get_rki_fallback_on_region_count_mismatch c7Env (by decide)⟩

/-- C8: under an environment where every download raises, get_jhu_deaths
returns the contents of /../data/confirmed_global_fallback_2020-04-07.csv,
the confirmed-cases fallback file, identical to what
get_jhu_confirmed_cases returns: the deaths fetcher does not fall back to a
deaths dataset.  (The network failure itself is indeed absorbed: the result
is the fallback read, not a raised error.) -/
theorem get_jhu_deaths_fallback_wrong_file :
    get_jhu_deaths c8Env = [["/../data/confirmed_global_fallback_2020-04-07.csv"]] ∧
    get_jhu_deaths c8Env = get_jhu_confirmed_cases c8Env :=
  ⟨rfl, rfl⟩

/-- C9 counterexample: the valid one-date-column CSV c9Table (5 columns in
total) normalizes successfully to a table with 1 date column, not the
ncols - 2 = 3 date columns the claim predicts. -/
theorem jhu_to_iso_shape_cex :
    Except.map (fun nt => nt.dates.length) (_jhu_to_iso c9Table) = .ok 1 ∧
    c9Table.ncols - 2 ≠ 1 := by
  constructor
  · decide
  · decide

/-- C9 amended: on success the normalized table keeps the original row
count and has exactly ncols - 4 date columns (the two coordinate columns
are dropped and the two entity columns move into the row index), with every
remaining header parsed by the two-digit-year %m/%d/%y format; and when any
remaining header does not conform, normalization fails with the date-format
ValueError (the error the spec calls FormatError). -/
theorem jhu_to_iso_shape_amended (t : RawTable) :
    (∀ nt, _jhu_to_iso t = .ok nt →
      nt.rows.length = t.nrows ∧ nt.dates.length = t.ncols - 4 ∧
      ∀ h ∈ t.dateHeaders, (parseMDY h).isSome = true) ∧
    ((∃ h ∈ t.dateHeaders, parseMDY h = none) →
      _jhu_to_iso t = .error (Err.valueError "time data does not match format %m/%d/%y")) := by
  constructor
  · intro nt hnt
    unfold _jhu_to_iso at hnt
    cases hp : parseHeaders t.dateHeaders with
    | none => rw [hp] at hnt; exact Except.noConfusion hnt
    | some ds =>
      rw [hp] at hnt
      injection hnt with hnt
      rw [← hnt]
      refine ⟨?_, ?_, parseHeaders_isSome t.dateHeaders ds hp⟩
      · simp [RawTable.nrows]
      · simp [RawTable.ncols, parseHeaders_length t.dateHeaders ds hp]
  · intro hex
    unfold _jhu_to_iso
    rw [parseHeaders_none t.dateHeaders hex]

/-- C9 witness: the amended claim at the concrete tables c9Table (valid,
5 columns, so 1 date column) and c9BadTable (second header non-conforming). -/
theorem jhu_to_iso_shape_witness :
    (c9Norm.rows.length = c9Table.nrows ∧ c9Norm.dates.length = c9Table.ncols - 4) ∧
    _jhu_to_iso c9BadTable
      = .error (Err.valueError "time data does not match format %m/%d/%y") :=
  ⟨⟨((jhu_to_iso_shape_amended c9Table).1 c9Norm (by decide)).1,
    ((jhu_to_iso_shape_amended c9Table).1 c9Norm (by decide)).2.1⟩,
   (jhu_to_iso_shape_amended c9BadTable).2 ⟨"foo", by decide, by decide⟩⟩

/-- C10 counterexample: calling filter_rki with the derived Total variable
leaves the caller-supplied dataframe with a new Total column: the state of
the input table after the call differs from the table passed in. -/
theorem filter_rki_total_mutates_cex :
    (filter_rki c10Df 0 10 "Total" none "").snd ≠ c10Df := by
  decide

/-- C10 amended: filter_rki leaves the caller-supplied table unchanged for
every variable other than Total; with the Total variable the call adds the
Total column (NeuerFall + AnzahlFall) to the caller-supplied table in
place, leaving every other column unchanged.  (filter_one_country is
embedded as a pure function of the table: it only reads its input.) -/
theorem extraction_no_mutation_amended (df : List RkiRow) (b e : Int)
    (var : String) (level : Option String) (value : String) :
    (var ≠ "Total" → (filter_rki df b e var level value).snd = df) ∧
    (var = "Total" → (filter_rki df b e var level value).snd
        = df.map (fun r => { r with total := some (r.neuerFall + r.anzahlFall) })) := by
  constructor
  · intro h
    rw [filter_rki_snd]
    unfold rkiAug
    rw [if_neg h]
  · intro h
    rw [filter_rki_snd]
    unfold rkiAug
    rw [if_pos h]

/-- C10 witness: a call with the AnzahlFall variable returns the caller's
table unchanged. -/
theorem extraction_no_mutation_witness :
    (filter_rki c10Df 0 10 "AnzahlFall" none "").snd = c10Df :=
  (extraction_no_mutation_amended c10Df 0 10 "AnzahlFall" none "").1 (by decide)

/-- C2: a per-region query answering 5001 records, above the 5000 limit, is
silently accepted: get_rki succeeds and its result is exactly the
concatenation of every per-region answer (the 5001 records of the one
non-empty region included), because the source builds
ValueError(Query limit exceeded) without ever raising it.  No QuotaExceeded
error reaches the caller and nothing is truncated. -/
theorem get_rki_quota_not_raised :
    5000 < (c2Env.query "09662").length ∧
    (get_rki c2Env).fst = .ok (((c2Env.regionIds.map c2Env.query).flatten).map
      (fun r => { toRkiRecord := r, date := fromtimestamp_ms r.meldedatum,
                  total := none })) ∧
    (get_rki c2Env).snd = c2Env.regionIds := by
  have h412 : c2Env.regionIds.length = 412 := by
    have h : c2Env.regionIds = "09662" :: List.replicate 411 "x" := rfl
    rw [h, List.length_cons, List.length_replicate]
  refine ⟨?_, ?_, ?_⟩
  · have h : c2Env.query "09662" = List.replicate 5001 c2Record := rfl
    rw [h, List.length_replicate]
    norm_num
  · simp only [get_rki]
    rw [if_pos h412]
  · simp only [get_rki]
    rw [if_pos h412]

/-- C4: whenever every value of the chosen metric over the input table is
non-negative, any sequence that filter_rki returns is non-decreasing: the
per-date group sums are non-negative, so the running cumulative sum is
monotone, and the date-range slice preserves that order. -/
theorem filter_rki_output_nondecreasing (df : List RkiRow) (b e : Int)
    (var : String) (level : Option String) (value : String) (out : List Int)
    (hpos : ∀ r ∈ df, 0 ≤ metricOf var r)
    (hout : (filter_rki df b e var level value).fst = .ok out) :
    ∀ (i j : Nat) (hi : i < out.length) (hj : j < out.length),
      i < j → out[i] ≤ out[j] := by
  have hget : ∀ r ∈ rkiAug var df, 0 ≤ (RkiRow.get r var).getD 0 :=
    nonneg_get_of_metric var df hpos
  have hpair : out.Pairwise (fun x y : Int => x ≤ y) := by
    cases level with
    | none =>
      simp only [filter_rki_fst] at hout
      rw [groupbyCumsum_ok _ _ _ _ _ hout]
      exact rkiSlice_pairwise _ _ _ (rkiCumsum_pairwise _ _ hget)
    | some lvl =>
      simp only [filter_rki_fst] at hout
      split_ifs at hout
      rw [groupbyCumsum_ok _ _ _ _ _ hout]
      refine rkiSlice_pairwise _ _ _ (rkiCumsum_pairwise _ _ ?_)
      intro r hr
      exact hget r (List.mem_filter.mp hr).1
  intro i j hi hj hij
  exact List.pairwise_iff_getElem.mp hpair i j hi hj hij

/-- C4 witness: a two-row table with non-negative case counts; the returned
cumulative series is [3, 7] and its entries are in order. -/
theorem filter_rki_output_nondecreasing_witness :
    (filter_rki c4Df 0 10000 "AnzahlFall" none "").fst = .ok [3, 7] ∧
    (3 : Int) ≤ 7 :=
  ⟨by decide,
   filter_rki_output_nondecreasing c4Df 0 10000 "AnzahlFall" none "" [3, 7]
     (by decide) (by decide) 0 1 (by decide) (by decide) (by decide)⟩

end Covid
